import Mathlib

/-!
Verification of the test-result store service and its submission client.

The development shallowly embeds the four source files of the repository:

* `src/backend/src/routes/testResults.ts` — the permissive route variant
  (connection gate, `MISSING_USER_ID` check, default-filling data
  preparation with numeric filtering of the four reaction-time sequences,
  list / get-by-id / count handlers);
* `src/backend/src/models/TestResult.ts` — despite its name, a second
  router file: the strict route variant (falsy checks for `userId`,
  `results`, `analysis`, then `Array.isArray` checks on the four named
  results fields);
* `src/unnamed/part_000` — the server entry point, which mounts the
  permissive variant at `/api/test-results`;
* `src/frontend/src/utils/api.ts` — the browser client
  (`saveTestResults` with its two pre-flight probes and HTTP status
  mapping).

JavaScript payload values are embedded as `JsValue`; JS numbers are
modelled as rationals (`NaN` appears as `Option.none` in the `ToNumber`
model).  The document store is modelled as an in-memory list of records:
every insert succeeds, `_id` is a fresh natural number and `createdAt` is
a supplied clock value.  Storage-layer faults (duplicate key, network
loss) are external to the repository's code and are not modelled; the one
modelled throw is the `TypeError` raised by calling `.filter` on a truthy
non-array results field, which the permissive route's generic `catch`
turns into a 500 `ATLAS_SAVE_ERROR` response.
-/

namespace BiasTest

/-- A JavaScript value as it can occur in a JSON request body (plus
`undefined`, which property reads can produce). -/
inductive JsValue where
  | undefined
  | nullv
  | bool (b : Bool)
  | num (q : Rat)
  | str (s : String)
  | arr (elems : List JsValue)
  | obj (fields : List (String × JsValue))

/-- JavaScript truthiness.  `NaN` is not representable in `num` (the
`ToNumber` model below returns `none` for it instead), `0` and the empty
string are falsy, arrays and objects are always truthy. -/
def JsValue.truthy : JsValue → Bool
  | .undefined => false
  | .nullv => false
  | .bool b => b
  | .num q => decide (q ≠ 0)
  | .str s => decide (s ≠ "")
  | .arr _ => true
  | .obj _ => true

/-- JavaScript property read `v.k` / `v[k]` for the string keys this
application uses.  Object lookup returns the first binding; every
non-object base yields `undefined` (the primitive bases have none of the
application's keys, and optional chaining on `null`/`undefined` also
yields `undefined`). -/
def JsValue.getField (v : JsValue) (k : String) : JsValue :=
  match v with
  | .obj fields =>
      match fields.find? (fun p => p.1 == k) with
      | some p => p.2
      | none => .undefined
  | _ => .undefined

/-- JavaScript `a || b`. -/
def jsOr (a b : JsValue) : JsValue := if a.truthy then a else b

/-- JavaScript `Array.isArray`. -/
def JsValue.isArray : JsValue → Bool
  | .arr _ => true
  | _ => false

/-- The element test of the permissive route's filter:
`typeof time === 'number' && time > 0`. -/
def isPositiveNumber : JsValue → Bool
  | .num q => decide (0 < q)
  | _ => false

/-- Parse a non-empty list of decimal digit characters. -/
def parseDigits (cs : List Char) : Option Nat :=
  if cs.isEmpty then none
  else cs.foldl (fun acc c =>
    acc.bind fun n => if c.isDigit then some (n * 10 + (c.toNat - 48)) else none)
    (some 0)

/-- Split a character list at a single decimal point; fails when more than
one point is present. -/
def splitAtPoint (cs : List Char) : Option (List Char × List Char) :=
  match cs.span (fun c => c ≠ '.') with
  | (ip, []) => some (ip, [])
  | (ip, _ :: rest) => if rest.contains '.' then none else some (ip, rest)

/-- Strip leading and trailing whitespace from a character list. -/
def trimChars (cs : List Char) : List Char :=
  ((cs.dropWhile Char.isWhitespace).reverse.dropWhile Char.isWhitespace).reverse

/-- Model of JavaScript `Number` on a string: after trimming, the empty
string is `0`; an optional sign followed by decimal digits with an
optional fractional part parses as a decimal; every other string is `NaN`
(`none`).  Hexadecimal and exponent literals do not occur in this
application's payloads and are modelled as `NaN`. -/
def parseDecimal (s : String) : Option Rat :=
  let t := trimChars s.toList
  if t.isEmpty then some 0
  else
    let (sign, body) :=
      match t with
      | '-' :: rest => ((-1 : Rat), rest)
      | '+' :: rest => ((1 : Rat), rest)
      | cs => ((1 : Rat), cs)
    match splitAtPoint body with
    | none => none
    | some (ip, fp) =>
      if ip.isEmpty && fp.isEmpty then none
      else
        match (if ip.isEmpty then some 0 else parseDigits ip),
              (if fp.isEmpty then some 0 else parseDigits fp) with
        | some i, some f =>
            some (sign * ((i : Rat) + (f : Rat) / ((10 : Rat) ^ fp.length)))
        | _, _ => none

/-- Model of the JavaScript `Number(x)` coercion on payload values, with
`none` standing for `NaN`.  Arrays and objects coerce through their
primitive string form; the model covers the empty array (which coerces
to `0`) and treats the remaining composites as `NaN`. -/
def jsToNumber : JsValue → Option Rat
  | .undefined => none
  | .nullv => some 0
  | .bool b => some (if b then 1 else 0)
  | .num q => some q
  | .str s => parseDecimal s
  | .arr [] => some 0
  | .arr (_ :: _) => none
  | .obj _ => none

/-- `Number(x) || 0` as used for the analysis scores: a numeric coercion
yields its value (`0` stays `0`), `NaN` falls back to `0`. -/
def numOr0 (v : JsValue) : Rat := (jsToNumber v).getD 0

/-- The four reaction-time sequences of a stored record. -/
structure StoredResults where
  maleComputer : List JsValue
  femaleSkincare : List JsValue
  femaleComputer : List JsValue
  maleSkincare : List JsValue

/-- The analysis block of a stored record, after the route's coercions
and defaults have been applied. -/
structure StoredAnalysis where
  dScore : Rat
  biasType : JsValue
  biasLevel : JsValue
  biasDirection : JsValue
  d1Score : Rat
  d2Score : Rat
  d3Score : Rat
  d4Score : Rat

/-- `testDate ? new Date(testDate) : new Date()`: either parsed from a
truthy submitted value or defaulted to the creation instant. -/
inductive StoredDate where
  | fromPayload (v : JsValue)
  | creationTime

/-- One persisted test-result document. `createdAt` is the
store-assigned timestamp (mongoose `timestamps: true`). -/
structure TestResultRecord where
  id : Nat
  userId : JsValue
  testDate : StoredDate
  results : StoredResults
  analysis : StoredAnalysis
  surveyResponses : JsValue
  deviceInfo : JsValue
  createdAt : Nat

/-- The store: connection flag (`mongoose.connection.readyState === 1`),
the persisted records and the next fresh identifier. -/
structure Db where
  connected : Bool
  records : List TestResultRecord
  nextId : Nat

/-- Outcome of a create handler: an error response (nothing written) or a
201 response carrying the saved record, whose `id`, `userId`, `testDate`
and `createdAt` form the response data. -/
inductive CreateResult where
  | error (status : Nat) (errorCode : String)
  | created (record : TestResultRecord)

/-- HTTP status of a create outcome. -/
def CreateResult.status : CreateResult → Nat
  | .error s _ => s
  | .created _ => 201

/-- Permissive handling of one reaction-time field:
`(results?.f || []).filter(time => typeof time === 'number' && time > 0)`.
A falsy field is replaced by `[]` before filtering; a truthy non-array
value makes `.filter` throw a `TypeError` (`none`), which the route's
generic `catch` turns into a 500 `ATLAS_SAVE_ERROR` response. -/
def filterReactionTimes (v : JsValue) : Option (List JsValue) :=
  match jsOr v (.arr []) with
  | .arr xs => some (xs.filter isPositiveNumber)
  | _ => none

/-- The permissive route's analysis preparation
(`routes/testResults.ts` lines 83–92): numeric coercions with fallback
`0`, `biasType || null`, `biasLevel || '無或極弱偏見'`,
`biasDirection || ''`. -/
def buildAnalysisPermissive (analysis : JsValue) : StoredAnalysis :=
  { dScore := numOr0 (analysis.getField "dScore")
    biasType := jsOr (analysis.getField "biasType") .nullv
    biasLevel := jsOr (analysis.getField "biasLevel") (.str "無或極弱偏見")
    biasDirection := jsOr (analysis.getField "biasDirection") (.str "")
    d1Score := numOr0 (analysis.getField "d1Score")
    d2Score := numOr0 (analysis.getField "d2Score")
    d3Score := numOr0 (analysis.getField "d3Score")
    d4Score := numOr0 (analysis.getField "d4Score") }

/-- The strict route's analysis preparation
(`models/TestResult.ts` lines 102–111); it differs from the permissive
one only in defaulting `biasLevel` to the empty string. -/
def buildAnalysisStrict (analysis : JsValue) : StoredAnalysis :=
  { dScore := numOr0 (analysis.getField "dScore")
    biasType := jsOr (analysis.getField "biasType") .nullv
    biasLevel := jsOr (analysis.getField "biasLevel") (.str "")
    biasDirection := jsOr (analysis.getField "biasDirection") (.str "")
    d1Score := numOr0 (analysis.getField "d1Score")
    d2Score := numOr0 (analysis.getField "d2Score")
    d3Score := numOr0 (analysis.getField "d3Score")
    d4Score := numOr0 (analysis.getField "d4Score") }

/-- `results.f || []` as used by the strict route after its
`Array.isArray` validation: at every reachable call the field is an
array; a falsy field would become `[]`. -/
def asArrayOrEmpty (v : JsValue) : List JsValue :=
  match v with
  | .arr xs => xs
  | _ => []

/-- The `testResultData` document the permissive route prepares on its
success path (`routes/testResults.ts` lines 74–95), given the already
filtered reaction-time sequences. -/
def mkPermissiveRecord (nextId now : Nat) (body : JsValue)
    (mc fs fc ms : List JsValue) : TestResultRecord :=
  { id := nextId
    userId := body.getField "userId"
    testDate :=
      if (body.getField "testDate").truthy then
        .fromPayload (body.getField "testDate")
      else .creationTime
    results :=
      { maleComputer := mc, femaleSkincare := fs
        femaleComputer := fc, maleSkincare := ms }
    analysis := buildAnalysisPermissive (body.getField "analysis")
    surveyResponses := jsOr (body.getField "surveyResponses") (.obj [])
    deviceInfo := jsOr (body.getField "deviceInfo") (.obj [])
    createdAt := now }

/-- The create handler of `src/backend/src/routes/testResults.ts`
(permissive variant, lines 34–194): connection gate, falsy-`userId`
check, default-filling preparation, save.  The model's store accepts
every insert, assigning `db.nextId` as `_id` and `now` as `createdAt`. -/
def permissiveCreate (db : Db) (now : Nat) (body : JsValue) :
    CreateResult × Db :=
  if !db.connected then
    (.error 503 "DATABASE_NOT_CONNECTED", db)
  else if !(body.getField "userId").truthy then
    (.error 400 "MISSING_USER_ID", db)
  else
    let results := body.getField "results"
    match filterReactionTimes (results.getField "maleComputer"),
          filterReactionTimes (results.getField "femaleSkincare"),
          filterReactionTimes (results.getField "femaleComputer"),
          filterReactionTimes (results.getField "maleSkincare") with
    | some mc, some fs, some fc, some ms =>
        let record := mkPermissiveRecord db.nextId now body mc fs fc ms
        (.created record,
         { db with records := db.records ++ [record], nextId := db.nextId + 1 })
    | _, _, _, _ => (.error 500 "ATLAS_SAVE_ERROR", db)

/-- The create handler of `src/backend/src/models/TestResult.ts`
(strict variant, lines 31–204): falsy checks for `userId`, `results` and
`analysis`, then `Array.isArray` checks for the four named results
fields, in source order; no connection gate.  The model's store accepts
every insert. -/
def strictCreate (db : Db) (now : Nat) (body : JsValue) :
    CreateResult × Db :=
  let userId := body.getField "userId"
  if !userId.truthy then (.error 400 "MISSING_USER_ID", db)
  else
    let results := body.getField "results"
    if !results.truthy then (.error 400 "MISSING_RESULTS", db)
    else
      let analysis := body.getField "analysis"
      if !analysis.truthy then (.error 400 "MISSING_ANALYSIS", db)
      else if !(results.getField "maleComputer").isArray then
        (.error 400 "INVALID_RESULTS_STRUCTURE", db)
      else if !(results.getField "femaleSkincare").isArray then
        (.error 400 "INVALID_RESULTS_STRUCTURE", db)
      else if !(results.getField "femaleComputer").isArray then
        (.error 400 "INVALID_RESULTS_STRUCTURE", db)
      else if !(results.getField "maleSkincare").isArray then
        (.error 400 "INVALID_RESULTS_STRUCTURE", db)
      else
        let testDate := body.getField "testDate"
        let record : TestResultRecord :=
          { id := db.nextId
            userId := userId
            testDate :=
              if testDate.truthy then .fromPayload testDate else .creationTime
            results :=
              { maleComputer := asArrayOrEmpty (results.getField "maleComputer")
                femaleSkincare := asArrayOrEmpty (results.getField "femaleSkincare")
                femaleComputer := asArrayOrEmpty (results.getField "femaleComputer")
                maleSkincare := asArrayOrEmpty (results.getField "maleSkincare") }
            analysis := buildAnalysisStrict analysis
            surveyResponses := jsOr (body.getField "surveyResponses") (.obj [])
            deviceInfo := jsOr (body.getField "deviceInfo") (.obj [])
            createdAt := now }
        (.created record,
         { db with records := db.records ++ [record], nextId := db.nextId + 1 })

/-- The create handler reachable at `POST /api/test-results` in the
deployed app: the server entry point (`src/unnamed/part_000`, lines 5 and
190) imports `./routes/testResults` — the permissive variant — and
mounts it at `/api/test-results`. -/
def deployedCreate : Db → Nat → JsValue → CreateResult × Db :=
  permissiveCreate

/-- Outcome of `GET /:id`: a 404 `success:false` response, or a 200
`success:true` response carrying the full record (`surveyResponses` and
`deviceInfo` included). -/
inductive GetByIdResult where
  | notFound
  | found (r : TestResultRecord)

/-- HTTP status of a get-by-id outcome. -/
def GetByIdResult.status : GetByIdResult → Nat
  | .notFound => 404
  | .found _ => 200

/-- The `success` flag of a get-by-id response body. -/
def GetByIdResult.success : GetByIdResult → Bool
  | .notFound => false
  | .found _ => true

/-- The get-by-id handler of `routes/testResults.ts` (lines 242–271):
`findById`, answering 404 when no record carries the identifier. -/
def getById (db : Db) (id : Nat) : GetByIdResult :=
  match db.records.find? (fun r => r.id == id) with
  | some r => .found r
  | none => .notFound

/-- A record as the list endpoint returns it:
`.select('-surveyResponses -deviceInfo')` projects those two fields
away. -/
structure ListItem where
  id : Nat
  userId : JsValue
  testDate : StoredDate
  results : StoredResults
  analysis : StoredAnalysis
  createdAt : Nat

/-- Projection applied by the list endpoint's `.select`. -/
def TestResultRecord.toListItem (r : TestResultRecord) : ListItem :=
  { id := r.id, userId := r.userId, testDate := r.testDate
    results := r.results, analysis := r.analysis, createdAt := r.createdAt }

/-- The `{ userId: u }` query filter: a record matches when its stored
`userId` is exactly the query string. -/
def userIdMatches (u : String) (r : TestResultRecord) : Bool :=
  match r.userId with
  | .str s => s == u
  | _ => false

/-- `if (userId) filter.userId = userId`: the filter applies only for a
truthy (hence non-empty) query value. -/
def applyUserIdFilter (userIdQ : Option String) (l : List TestResultRecord) :
    List TestResultRecord :=
  match userIdQ with
  | some u => if u = "" then l else l.filter (userIdMatches u)
  | none => l

/-- The descending creation-time order used by the list endpoint. -/
def createdAtDesc (a b : TestResultRecord) : Prop :=
  b.createdAt ≤ a.createdAt

instance : DecidableRel createdAtDesc := fun a b =>
  inferInstanceAs (Decidable (b.createdAt ≤ a.createdAt))

/-- Model of the store's `.sort({ createdAt: -1 })`: the records in
descending creation-time order. -/
def sortByCreatedAtDesc (l : List TestResultRecord) : List TestResultRecord :=
  l.insertionSort createdAtDesc

/-- The pagination block of a list response. -/
structure Pagination where
  page : Nat
  limit : Nat
  total : Nat
  pages : Nat

/-- A list response: the page of projected records plus pagination. -/
structure ListResponse where
  data : List ListItem
  pagination : Pagination

/-- The list handler of `routes/testResults.ts` (lines 197–239).  The
optional query parameters default as in
`const { page = 1, limit = 20, userId } = req.query`; `skip` is
`(page - 1) * limit`, and `pages` is `Math.ceil(total / limit)` written
for naturals (the handler is used with `limit > 0`). -/
def listHandler (db : Db) (pageQ limitQ : Option Nat)
    (userIdQ : Option String) : ListResponse :=
  let page := pageQ.getD 1
  let limit := limitQ.getD 20
  let filtered := applyUserIdFilter userIdQ db.records
  let sorted := sortByCreatedAtDesc filtered
  { data :=
      ((sorted.drop ((page - 1) * limit)).take limit).map
        TestResultRecord.toListItem
    pagination :=
      { page := page, limit := limit, total := filtered.length
        pages := (filtered.length + limit - 1) / limit } }

/-- The data block of a count response. -/
structure CountData where
  total : Nat
  today : Nat

/-- The count handler of `routes/testResults.ts` (lines 274–291): the
total document count, plus the count of documents whose `createdAt` is
at or after `startOfToday` — the handler's `new Date()` with hours,
minutes, seconds and milliseconds zeroed, i.e. the start of the current
server-local calendar day. -/
def countAll (db : Db) (startOfToday : Nat) : CountData :=
  { total := db.records.length
    today :=
      (db.records.filter (fun r => decide (startOfToday ≤ r.createdAt))).length }

/-- One network action of the submission client, in the order
`saveTestResults` performs them. -/
inductive ClientAction where
  | healthProbe
  | atlasProbe
  | createPost
  deriving DecidableEq, BEq

/-- The environment a `saveTestResults` call runs against: the outcome of
the two boolean probes (`checkApiHealth`, `testAtlasConnection`) and, if
the POST is reached, its result — `none` when `fetch` throws (network
failure), `some status` for an HTTP response. -/
structure ClientEnv where
  healthOk : Bool
  atlasOk : Bool
  postResponse : Option Nat

/-- The distinct error conditions `saveTestResults` can surface, each a
distinct thrown message in the source. -/
inductive SubmitOutcome where
  | success
  | serviceUnreachable
  | atlasUnreachable
  | validationFailed
  | duplicateEntry
  | atlasUnavailable
  | otherHttpError (status : Nat)
  | networkFailure
  deriving DecidableEq

/-- `response.ok`: status in 200–299. -/
def httpOk (status : Nat) : Bool := decide (200 ≤ status ∧ status < 300)

/-- The status interpretation of the create response
(`api.ts` lines 168–205): ok is success, and the non-ok statuses 400,
409 and 503 map to the distinct validation / duplicate / Atlas errors,
every other status to the generic one. -/
def mapCreateStatus (status : Nat) : SubmitOutcome :=
  if httpOk status then .success
  else if status == 400 then .validationFailed
  else if status == 409 then .duplicateEntry
  else if status == 503 then .atlasUnavailable
  else .otherHttpError status

/-- The submission flow of `src/frontend/src/utils/api.ts`
(`saveTestResults`, lines 85–219): health probe, Atlas probe, then the
create POST, each gated on the previous.  The result is paired with the
ordered list of network actions performed. -/
def saveTestResults (env : ClientEnv) : SubmitOutcome × List ClientAction :=
  if !env.healthOk then
    (.serviceUnreachable, [.healthProbe])
  else if !env.atlasOk then
    (.atlasUnreachable, [.healthProbe, .atlasProbe])
  else
    match env.postResponse with
    | none =>
        (.networkFailure, [.healthProbe, .atlasProbe, .createPost])
    | some status =>
        (mapCreateStatus status, [.healthProbe, .atlasProbe, .createPost])

/-! ### Concrete stores and payloads used by witnesses -/

/-- A connected, empty store. -/
def emptyDb : Db := { connected := true, records := [], nextId := 0 }

/-- A disconnected, empty store. -/
def offlineDb : Db := { connected := false, records := [], nextId := 0 }

/-- A concrete stored record. -/
def sampleRecord : TestResultRecord :=
  { id := 7
    userId := .str "u1"
    testDate := .creationTime
    results :=
      { maleComputer := [], femaleSkincare := []
        femaleComputer := [], maleSkincare := [] }
    analysis :=
      { dScore := 0, biasType := .nullv, biasLevel := .str ""
        biasDirection := .str "", d1Score := 0, d2Score := 0
        d3Score := 0, d4Score := 0 }
    surveyResponses := .obj []
    deviceInfo := .obj []
    createdAt := 0 }

/-- A connected store holding exactly `sampleRecord`. -/
def oneRecordDb : Db := { connected := true, records := [sampleRecord], nextId := 8 }

/-! ### Helper lemmas -/

theorem filterReactionTimes_arr (xs : List JsValue) :
    filterReactionTimes (.arr xs) = some (xs.filter isPositiveNumber) := rfl

theorem filterReactionTimes_falsy {v : JsValue} (h : v.truthy = false) :
    filterReactionTimes v = some [] := by
  simp [filterReactionTimes, jsOr, h]

theorem filterReactionTimes_eq_none_iff (v : JsValue) :
    filterReactionTimes v = none ↔ v.truthy = true ∧ v.isArray = false := by
  cases v
  case num q =>
    by_cases h : q = 0 <;>
      simp [filterReactionTimes, jsOr, JsValue.truthy, JsValue.isArray, h]
  case str s =>
    by_cases h : s = "" <;>
      simp [filterReactionTimes, jsOr, JsValue.truthy, JsValue.isArray, h]
  case bool b =>
    cases b <;>
      simp [filterReactionTimes, jsOr, JsValue.truthy, JsValue.isArray]
  all_goals
    simp [filterReactionTimes, jsOr, JsValue.truthy, JsValue.isArray]

theorem filterReactionTimes_isSome {v : JsValue}
    (h : v.isArray = true ∨ v.truthy = false) :
    ∃ xs, filterReactionTimes v = some xs := by
  cases hfv : filterReactionTimes v with
  | none =>
    rcases (filterReactionTimes_eq_none_iff v).mp hfv with ⟨h1, h2⟩
    rcases h with h | h
    · rw [h] at h2; cases h2
    · rw [h] at h1; cases h1
  | some xs => exact ⟨xs, rfl⟩

theorem permissiveCreate_eq_created {db : Db} {now : Nat} {body : JsValue}
    {mc fs fc ms : List JsValue}
    (hconn : db.connected = true)
    (huser : (body.getField "userId").truthy = true)
    (hmc : filterReactionTimes ((body.getField "results").getField "maleComputer") = some mc)
    (hfs : filterReactionTimes ((body.getField "results").getField "femaleSkincare") = some fs)
    (hfc : filterReactionTimes ((body.getField "results").getField "femaleComputer") = some fc)
    (hms : filterReactionTimes ((body.getField "results").getField "maleSkincare") = some ms) :
    permissiveCreate db now body =
      (.created (mkPermissiveRecord db.nextId now body mc fs fc ms),
       { db with
           records := db.records ++ [mkPermissiveRecord db.nextId now body mc fs fc ms]
           nextId := db.nextId + 1 }) := by
  simp [permissiveCreate, hconn, huser, hmc, hfs, hfc, hms]

theorem permissiveCreate_created_inv {db : Db} {now : Nat} {body : JsValue}
    {r : TestResultRecord}
    (h : (permissiveCreate db now body).1 = .created r) :
    db.connected = true ∧ (body.getField "userId").truthy = true ∧
    ∃ mc fs fc ms,
      filterReactionTimes ((body.getField "results").getField "maleComputer") = some mc ∧
      filterReactionTimes ((body.getField "results").getField "femaleSkincare") = some fs ∧
      filterReactionTimes ((body.getField "results").getField "femaleComputer") = some fc ∧
      filterReactionTimes ((body.getField "results").getField "maleSkincare") = some ms ∧
      r = mkPermissiveRecord db.nextId now body mc fs fc ms := by
  by_cases hconn : db.connected = true
  · by_cases huser : (body.getField "userId").truthy = true
    · cases hmc : filterReactionTimes ((body.getField "results").getField "maleComputer") with
      | none => simp [permissiveCreate, hconn, huser, hmc] at h
      | some mc =>
        cases hfs : filterReactionTimes ((body.getField "results").getField "femaleSkincare") with
        | none => simp [permissiveCreate, hconn, huser, hmc, hfs] at h
        | some fs =>
          cases hfc : filterReactionTimes ((body.getField "results").getField "femaleComputer") with
          | none => simp [permissiveCreate, hconn, huser, hmc, hfs, hfc] at h
          | some fc =>
            cases hms : filterReactionTimes ((body.getField "results").getField "maleSkincare") with
            | none => simp [permissiveCreate, hconn, huser, hmc, hfs, hfc, hms] at h
            | some ms =>
              rw [permissiveCreate_eq_created hconn huser hmc hfs hfc hms] at h
              simp at h
              exact ⟨hconn, huser, mc, fs, fc, ms, rfl, rfl, rfl, rfl, h.symm⟩
    · have huser' : (body.getField "userId").truthy = false := by simpa using huser
      simp [permissiveCreate, hconn, huser'] at h
  · have hconn' : db.connected = false := by simpa using hconn
    simp [permissiveCreate, hconn'] at h

theorem find?_of_mem_of_uniqueIds (l : List TestResultRecord) (id : Nat)
    (r : TestResultRecord)
    (hids : l.Pairwise (fun a b => a.id ≠ b.id)) (hr : r ∈ l) (hrid : r.id = id) :
    l.find? (fun x => x.id == id) = some r := by
  induction l with
  | nil => cases hr
  | cons a t ih =>
    rcases List.mem_cons.mp hr with h1 | h2
    · subst h1
      have : (r.id == id) = true := by simp [hrid]
      simp [List.find?, this]
    · have hpc := List.pairwise_cons.mp hids
      have hne : (a.id == id) = false := by
        have h3 := hpc.1 r h2
        rw [hrid] at h3
        simp [h3]
      simp only [List.find?, hne]
      exact ih hpc.2 h2

/-! ### Claim theorems -/

/-- C10: the deployed (permissive) create handler checks the database
connection state before any payload validation.  While the connection is
not ready it answers 503 with error code `DATABASE_NOT_CONNECTED` and
writes nothing — even when the payload is missing `userId` — and a 400
`MISSING_USER_ID` response can only be produced with the connection
ready. -/
theorem deployed_connection_gate (db : Db) (now : Nat) (body : JsValue) :
    (db.connected = false →
      deployedCreate db now body = (.error 503 "DATABASE_NOT_CONNECTED", db)) ∧
    ((deployedCreate db now body).1 = .error 400 "MISSING_USER_ID" →
      db.connected = true) := by
  constructor
  · intro h
    simp [deployedCreate, permissiveCreate, h]
  · intro h
    by_cases hc : db.connected = true
    · exact hc
    · have hcf : db.connected = false := by simpa using hc
      simp [deployedCreate, permissiveCreate, hcf] at h

/-- C10 witness: the connection gate evaluated on a disconnected store
and a payload with no `userId`. -/
theorem deployed_connection_gate_witness :
    deployedCreate offlineDb 0 (.obj []) =
      (.error 503 "DATABASE_NOT_CONNECTED", offlineDb) :=
  (deployed_connection_gate offlineDb 0 (.obj [])).1 rfl

/-- C7: get-by-id answers 404 with `success:false` when no stored record
carries the identifier, and 200 with the full record when one does; the
handler is a total function of the store and identifier, so it cannot
throw unhandled. -/
theorem getById_spec (db : Db) (id : Nat)
    (hids : db.records.Pairwise (fun a b => a.id ≠ b.id)) :
    ((∀ r ∈ db.records, r.id ≠ id) →
      getById db id = .notFound ∧ (getById db id).status = 404 ∧
      (getById db id).success = false) ∧
    (∀ r ∈ db.records, r.id = id →
      getById db id = .found r ∧ (getById db id).status = 200 ∧
      (getById db id).success = true) := by
  constructor
  · intro h
    have hfind : db.records.find? (fun x => x.id == id) = none := by
      apply List.find?_eq_none.mpr
      intro x hx
      simp [h x hx]
    simp [getById, hfind, GetByIdResult.status, GetByIdResult.success]
  · intro r hr hrid
    have hfind := find?_of_mem_of_uniqueIds db.records id r hids hr hrid
    simp [getById, hfind, GetByIdResult.status, GetByIdResult.success]

/-- C7 witness: a miss and a hit on a one-record store. -/
theorem getById_spec_witness :
    getById oneRecordDb 9 = .notFound ∧
    getById oneRecordDb 7 = .found sampleRecord := by
  constructor
  · exact ((getById_spec oneRecordDb 9 (by simp [oneRecordDb])).1
      (by intro r hr; rw [oneRecordDb] at hr; simp at hr; subst hr
          simp [sampleRecord])).1
  · exact ((getById_spec oneRecordDb 7 (by simp [oneRecordDb])).2 sampleRecord
      (by simp [oneRecordDb]) rfl).1

/-- C6: count-all returns the total number of stored records, and the
number of records created at or after the start of the current
server-local calendar day; with the store holding `old` records from
before today and `recent` records from today, `today` equals the number
of recent records, and `today ≤ total` holds in any case. -/
theorem countAll_spec (db : Db) (startOfToday : Nat)
    (old recent : List TestResultRecord)
    (hsplit : db.records = old ++ recent)
    (hold : ∀ r ∈ old, r.createdAt < startOfToday)
    (hrecent : ∀ r ∈ recent, startOfToday ≤ r.createdAt) :
    (countAll db startOfToday).total = db.records.length ∧
    (countAll db startOfToday).today = recent.length ∧
    recent.length ≤ (countAll db startOfToday).total ∧
    (countAll db startOfToday).today ≤ (countAll db startOfToday).total := by
  have htoday : (countAll db startOfToday).today = recent.length := by
    simp only [countAll, hsplit, List.filter_append]
    rw [List.filter_eq_nil_iff.mpr, List.filter_eq_self.mpr]
    · simp
    · intro r hr
      simpa using hrecent r hr
    · intro r hr
      simpa using Nat.not_le.mpr (hold r hr)
  have hle : (countAll db startOfToday).today ≤ (countAll db startOfToday).total :=
    List.length_filter_le _ _
  refine ⟨rfl, htoday, ?_, hle⟩
  rw [← htoday]
  exact hle

theorem trace_counts (l : List ClientAction)
    (h : l = [.healthProbe] ∨ l = [.healthProbe, .atlasProbe] ∨
         l = [.healthProbe, .atlasProbe, .createPost]) :
    l.count .healthProbe = 1 ∧ l.count .atlasProbe ≤ 1 ∧
    l.count .createPost ≤ 1 := by
  rcases h with h | h | h <;> subst h <;> decide

/-- C8: the client submit performs the service health probe, then the
storage-connectivity probe, then the create POST, in that order and each
at most once (no retry); the POST is issued only when both probes
returned true; the two probe failures surface as distinct errors, and a
non-success HTTP status on the create maps to distinct errors for 400,
409 and 503 and a generic error carrying any other status. -/
theorem saveTestResults_spec (env : ClientEnv) :
    ((saveTestResults env).2 = [.healthProbe] ∨
     (saveTestResults env).2 = [.healthProbe, .atlasProbe] ∨
     (saveTestResults env).2 = [.healthProbe, .atlasProbe, .createPost]) ∧
    ((saveTestResults env).2.count .healthProbe = 1 ∧
     (saveTestResults env).2.count .atlasProbe ≤ 1 ∧
     (saveTestResults env).2.count .createPost ≤ 1) ∧
    (ClientAction.createPost ∈ (saveTestResults env).2 →
      env.healthOk = true ∧ env.atlasOk = true) ∧
    (env.healthOk = false →
      saveTestResults env = (.serviceUnreachable, [.healthProbe])) ∧
    (env.healthOk = true → env.atlasOk = false →
      saveTestResults env = (.atlasUnreachable, [.healthProbe, .atlasProbe])) ∧
    (env.healthOk = true → env.atlasOk = true →
      (saveTestResults env).2 = [.healthProbe, .atlasProbe, .createPost] ∧
      (env.postResponse = none → (saveTestResults env).1 = .networkFailure) ∧
      (env.postResponse = some 400 → (saveTestResults env).1 = .validationFailed) ∧
      (env.postResponse = some 409 → (saveTestResults env).1 = .duplicateEntry) ∧
      (env.postResponse = some 503 → (saveTestResults env).1 = .atlasUnavailable) ∧
      (∀ s, env.postResponse = some s → httpOk s = false →
        s ≠ 400 → s ≠ 409 → s ≠ 503 →
        (saveTestResults env).1 = .otherHttpError s)) := by
  obtain ⟨hOk, aOk, post⟩ := env
  cases hOk
  · exact ⟨Or.inl rfl, trace_counts _ (Or.inl rfl), by simp [saveTestResults],
      fun _ => rfl, by simp, by simp⟩
  · cases aOk
    · exact ⟨Or.inr (Or.inl rfl), trace_counts _ (Or.inr (Or.inl rfl)),
        by simp [saveTestResults], by simp, fun _ _ => rfl, by simp⟩
    · cases post with
      | none =>
        refine ⟨Or.inr (Or.inr rfl), trace_counts _ (Or.inr (Or.inr rfl)),
          fun _ => ⟨rfl, rfl⟩,
          by simp, by simp, fun _ _ => ⟨rfl, fun _ => rfl, ?_, ?_, ?_, ?_⟩⟩
        all_goals intro h
        · cases h
        · cases h
        · cases h
        · intro hs; cases hs
      | some s =>
        refine ⟨Or.inr (Or.inr rfl), trace_counts _ (Or.inr (Or.inr rfl)),
          fun _ => ⟨rfl, rfl⟩,
          by simp, by simp, fun _ _ => ⟨rfl, by simp, ?_, ?_, ?_, ?_⟩⟩
        · intro h
          have hs : s = 400 := by simpa using h
          subst hs
          decide
        · intro h
          have hs : s = 409 := by simpa using h
          subst hs
          decide
        · intro h
          have hs : s = 503 := by simpa using h
          subst hs
          decide
        · intro t ht hok h400 h409 h503
          have hts : s = t := by simpa using ht
          subst hts
          have e400 : (s == 400) = false := by simpa using h400
          have e409 : (s == 409) = false := by simpa using h409
          have e503 : (s == 503) = false := by simpa using h503
          simp [saveTestResults, mapCreateStatus, hok, e400, e409, e503]

/-- C8 witness: the mapping evaluated with both probes passing and a 400
response on the create. -/
theorem saveTestResults_spec_witness :
    (saveTestResults ⟨true, true, some 400⟩).1 = .validationFailed ∧
    (saveTestResults ⟨true, true, some 400⟩).2 =
      [.healthProbe, .atlasProbe, .createPost] := by
  have h := saveTestResults_spec ⟨true, true, some 400⟩
  exact ⟨((h.2.2.2.2.2 rfl rfl).2.2.1) rfl, (h.2.2.2.2.2 rfl rfl).1⟩

/-- C6 witness: a store with one record created today, counted from the
start of today. -/
theorem countAll_spec_witness :
    (countAll oneRecordDb 0).total = 1 ∧
    (countAll oneRecordDb 0).today = 1 := by
  have h := countAll_spec oneRecordDb 0 [] [sampleRecord] rfl
    (by intro r hr; cases hr)
    (by intro r hr; exact Nat.zero_le _)
  exact ⟨by simpa [oneRecordDb] using h.1, by simpa using h.2.1⟩

/-- A payload whose `results` object is present but carries none of the
four named sequence fields. -/
def bodyNoSequences : JsValue :=
  .obj [("userId", .str "u1"), ("results", .obj []), ("analysis", .obj [])]

/-- C1 counterexample: on a payload whose `results` object carries none
of the four named fields, the strict variant answers 400
`INVALID_RESULTS_STRUCTURE` even though no field is present but not a
sequence — refuting the claim that a field absent from `results` is
accepted and defaulted to an empty sequence. -/
theorem strict_absent_field_counterexample :
    strictCreate emptyDb 0 bodyNoSequences =
      (.error 400 "INVALID_RESULTS_STRUCTURE", emptyDb) ∧
    (bodyNoSequences.getField "results").getField "maleComputer" = .undefined ∧
    (bodyNoSequences.getField "results").getField "femaleSkincare" = .undefined ∧
    (bodyNoSequences.getField "results").getField "femaleComputer" = .undefined ∧
    (bodyNoSequences.getField "results").getField "maleSkincare" = .undefined :=
  ⟨rfl, rfl, rfl, rfl, rfl⟩

/-- C1 (amended): in the strict create variant the handler answers, in
check order, 400 `MISSING_USER_ID` when `userId` is falsy (in particular
absent), 400 `MISSING_RESULTS` when `results` is falsy, 400
`MISSING_ANALYSIS` when `analysis` is falsy, and 400
`INVALID_RESULTS_STRUCTURE` when any of the four named fields of
`results` is not a sequence — a field absent from `results` counts as
not a sequence and is rejected, not defaulted; in every such 400 case
nothing is written to storage. -/
theorem strict_validation (db : Db) (now : Nat) (body : JsValue) :
    ((body.getField "userId").truthy = false →
      strictCreate db now body = (.error 400 "MISSING_USER_ID", db)) ∧
    ((body.getField "userId").truthy = true →
     (body.getField "results").truthy = false →
      strictCreate db now body = (.error 400 "MISSING_RESULTS", db)) ∧
    ((body.getField "userId").truthy = true →
     (body.getField "results").truthy = true →
     (body.getField "analysis").truthy = false →
      strictCreate db now body = (.error 400 "MISSING_ANALYSIS", db)) ∧
    ((body.getField "userId").truthy = true →
     (body.getField "results").truthy = true →
     (body.getField "analysis").truthy = true →
     (((body.getField "results").getField "maleComputer").isArray = false ∨
      ((body.getField "results").getField "femaleSkincare").isArray = false ∨
      ((body.getField "results").getField "femaleComputer").isArray = false ∨
      ((body.getField "results").getField "maleSkincare").isArray = false) →
      strictCreate db now body = (.error 400 "INVALID_RESULTS_STRUCTURE", db)) ∧
    (∀ s c, (strictCreate db now body).1 = .error s c →
      (strictCreate db now body).2 = db) := by
  refine ⟨?_, ?_, ?_, ?_, ?_⟩
  · intro h
    simp [strictCreate, h]
  · intro h1 h2
    simp [strictCreate, h1, h2]
  · intro h1 h2 h3
    simp [strictCreate, h1, h2, h3]
  · intro h1 h2 h3 h4
    rcases h4 with h | h | h | h <;> simp [strictCreate, h1, h2, h3, h]
  · intro s c h
    simp only [strictCreate] at h ⊢
    split_ifs at h ⊢ <;> rfl

/-- C1 witness: the first rejection evaluated on the empty payload. -/
theorem strict_validation_witness :
    strictCreate emptyDb 0 (.obj []) = (.error 400 "MISSING_USER_ID", emptyDb) :=
  (strict_validation emptyDb 0 (.obj [])).1 rfl

/-- C3: whenever the permissive create stores a record, each of the four
reaction-time sequences was filtered to keep exactly the submitted
entries that are numbers strictly greater than zero, so the stored
length is at most the submitted length; a missing (falsy) field is
stored as the empty sequence. -/
theorem permissive_filtering (db : Db) (now : Nat) (body : JsValue)
    (r : TestResultRecord)
    (hc : (permissiveCreate db now body).1 = .created r) :
    ((∀ xs, (body.getField "results").getField "maleComputer" = .arr xs →
        r.results.maleComputer = xs.filter isPositiveNumber ∧
        r.results.maleComputer.length ≤ xs.length) ∧
     (((body.getField "results").getField "maleComputer").truthy = false →
        r.results.maleComputer = [])) ∧
    ((∀ xs, (body.getField "results").getField "femaleSkincare" = .arr xs →
        r.results.femaleSkincare = xs.filter isPositiveNumber ∧
        r.results.femaleSkincare.length ≤ xs.length) ∧
     (((body.getField "results").getField "femaleSkincare").truthy = false →
        r.results.femaleSkincare = [])) ∧
    ((∀ xs, (body.getField "results").getField "femaleComputer" = .arr xs →
        r.results.femaleComputer = xs.filter isPositiveNumber ∧
        r.results.femaleComputer.length ≤ xs.length) ∧
     (((body.getField "results").getField "femaleComputer").truthy = false →
        r.results.femaleComputer = [])) ∧
    ((∀ xs, (body.getField "results").getField "maleSkincare" = .arr xs →
        r.results.maleSkincare = xs.filter isPositiveNumber ∧
        r.results.maleSkincare.length ≤ xs.length) ∧
     (((body.getField "results").getField "maleSkincare").truthy = false →
        r.results.maleSkincare = [])) := by
  obtain ⟨hconn, huser, mc, fs, fc, ms, hmc, hfs, hfc, hms, hr⟩ :=
    permissiveCreate_created_inv hc
  subst hr
  refine ⟨⟨?_, ?_⟩, ⟨?_, ?_⟩, ⟨?_, ?_⟩, ⟨?_, ?_⟩⟩
  · intro xs hxs
    rw [hxs, filterReactionTimes_arr, Option.some.injEq] at hmc
    subst hmc
    exact ⟨rfl, List.length_filter_le _ _⟩
  · intro hfalse
    rw [filterReactionTimes_falsy hfalse, Option.some.injEq] at hmc
    cases hmc
    rfl
  · intro xs hxs
    rw [hxs, filterReactionTimes_arr, Option.some.injEq] at hfs
    subst hfs
    exact ⟨rfl, List.length_filter_le _ _⟩
  · intro hfalse
    rw [filterReactionTimes_falsy hfalse, Option.some.injEq] at hfs
    cases hfs
    rfl
  · intro xs hxs
    rw [hxs, filterReactionTimes_arr, Option.some.injEq] at hfc
    subst hfc
    exact ⟨rfl, List.length_filter_le _ _⟩
  · intro hfalse
    rw [filterReactionTimes_falsy hfalse, Option.some.injEq] at hfc
    cases hfc
    rfl
  · intro xs hxs
    rw [hxs, filterReactionTimes_arr, Option.some.injEq] at hms
    subst hms
    exact ⟨rfl, List.length_filter_le _ _⟩
  · intro hfalse
    rw [filterReactionTimes_falsy hfalse, Option.some.injEq] at hms
    cases hms
    rfl

/-- A payload with out-of-range and non-numeric entries in one sequence,
an all-filtered sequence, an empty sequence, and one sequence missing. -/
def mixedPayload : JsValue :=
  .obj [("userId", .str "u2"),
        ("results", .obj [
          ("maleComputer", .arr [.num 500, .num (-3), .str "x", .num 620]),
          ("femaleSkincare", .arr [.num 0]),
          ("femaleComputer", .arr [])])]

/-- The record the permissive create stores for `mixedPayload`. -/
def mixedRecord : TestResultRecord :=
  mkPermissiveRecord 0 5 mixedPayload [.num 500, .num 620] [] [] []

/-- C3 witness: filtering evaluated on `mixedPayload` — the kept entries
of the mixed sequence and the empty default of the missing sequence. -/
theorem permissive_filtering_witness :
    mixedRecord.results.maleComputer =
      ([JsValue.num 500, .num (-3), .str "x", .num 620]).filter isPositiveNumber ∧
    mixedRecord.results.maleSkincare = [] := by
  have h := permissive_filtering emptyDb 5 mixedPayload mixedRecord rfl
  exact ⟨(h.1.1 _ rfl).1, h.2.2.2.2 rfl⟩

/-- C4: on every stored record of the (deployed, permissive) create, an
absent or falsy `biasLevel` is stored as the textual
no-or-extremely-weak-bias default `無或極弱偏見`, each numeric analysis
field is stored as its numeric coercion with fallback 0 on coercion
failure, and an absent or falsy `biasType` is stored as null. -/
theorem permissive_analysis_defaults (db : Db) (now : Nat) (body : JsValue)
    (r : TestResultRecord)
    (hc : (permissiveCreate db now body).1 = .created r) :
    (((body.getField "analysis").getField "biasLevel").truthy = false →
      r.analysis.biasLevel = .str "無或極弱偏見") ∧
    (((body.getField "analysis").getField "biasType").truthy = false →
      r.analysis.biasType = .nullv) ∧
    ((jsToNumber ((body.getField "analysis").getField "dScore") = none →
        r.analysis.dScore = 0) ∧
     (∀ q, jsToNumber ((body.getField "analysis").getField "dScore") = some q →
        r.analysis.dScore = q)) ∧
    ((jsToNumber ((body.getField "analysis").getField "d1Score") = none →
        r.analysis.d1Score = 0) ∧
     (∀ q, jsToNumber ((body.getField "analysis").getField "d1Score") = some q →
        r.analysis.d1Score = q)) ∧
    ((jsToNumber ((body.getField "analysis").getField "d2Score") = none →
        r.analysis.d2Score = 0) ∧
     (∀ q, jsToNumber ((body.getField "analysis").getField "d2Score") = some q →
        r.analysis.d2Score = q)) ∧
    ((jsToNumber ((body.getField "analysis").getField "d3Score") = none →
        r.analysis.d3Score = 0) ∧
     (∀ q, jsToNumber ((body.getField "analysis").getField "d3Score") = some q →
        r.analysis.d3Score = q)) ∧
    ((jsToNumber ((body.getField "analysis").getField "d4Score") = none →
        r.analysis.d4Score = 0) ∧
     (∀ q, jsToNumber ((body.getField "analysis").getField "d4Score") = some q →
        r.analysis.d4Score = q)) := by
  obtain ⟨-, -, mc, fs, fc, ms, -, -, -, -, hr⟩ :=
    permissiveCreate_created_inv hc
  subst hr
  refine ⟨?_, ?_, ⟨?_, ?_⟩, ⟨?_, ?_⟩, ⟨?_, ?_⟩, ⟨?_, ?_⟩, ⟨?_, ?_⟩⟩
  · intro h
    simp [mkPermissiveRecord, buildAnalysisPermissive, jsOr, h]
  · intro h
    simp [mkPermissiveRecord, buildAnalysisPermissive, jsOr, h]
  · intro h
    simp [mkPermissiveRecord, buildAnalysisPermissive, numOr0, h]
  · intro q h
    simp [mkPermissiveRecord, buildAnalysisPermissive, numOr0, h]
  · intro h
    simp [mkPermissiveRecord, buildAnalysisPermissive, numOr0, h]
  · intro q h
    simp [mkPermissiveRecord, buildAnalysisPermissive, numOr0, h]
  · intro h
    simp [mkPermissiveRecord, buildAnalysisPermissive, numOr0, h]
  · intro q h
    simp [mkPermissiveRecord, buildAnalysisPermissive, numOr0, h]
  · intro h
    simp [mkPermissiveRecord, buildAnalysisPermissive, numOr0, h]
  · intro q h
    simp [mkPermissiveRecord, buildAnalysisPermissive, numOr0, h]
  · intro h
    simp [mkPermissiveRecord, buildAnalysisPermissive, numOr0, h]
  · intro q h
    simp [mkPermissiveRecord, buildAnalysisPermissive, numOr0, h]

/-- A payload whose analysis block has only a non-numeric `dScore`. -/
def sparseAnalysisPayload : JsValue :=
  .obj [("userId", .str "u3"), ("analysis", .obj [("dScore", .str "abc")])]

/-- The record the permissive create stores for
`sparseAnalysisPayload`. -/
def sparseAnalysisRecord : TestResultRecord :=
  mkPermissiveRecord 0 9 sparseAnalysisPayload [] [] [] []

/-- C4 witness: the defaults evaluated on a payload lacking `biasLevel`
and `biasType` and carrying an unparseable `dScore`. -/
theorem permissive_analysis_defaults_witness :
    sparseAnalysisRecord.analysis.biasLevel = .str "無或極弱偏見" ∧
    sparseAnalysisRecord.analysis.biasType = .nullv ∧
    sparseAnalysisRecord.analysis.dScore = 0 := by
  have h := permissive_analysis_defaults emptyDb 9 sparseAnalysisPayload
    sparseAnalysisRecord rfl
  exact ⟨h.1 rfl, h.2.1 rfl, h.2.2.1.1 rfl⟩

theorem deployedCreate_eq : deployedCreate = permissiveCreate := rfl

theorem permissiveCreate_error_codes {db : Db} {now : Nat} {body : JsValue}
    {s : Nat} {c : String}
    (h : (permissiveCreate db now body).1 = .error s c) :
    (s = 503 ∧ c = "DATABASE_NOT_CONNECTED") ∨
    (s = 400 ∧ c = "MISSING_USER_ID") ∨
    (s = 500 ∧ c = "ATLAS_SAVE_ERROR") := by
  by_cases h1 : db.connected = true
  · by_cases h2 : (body.getField "userId").truthy = true
    · cases hmc : filterReactionTimes ((body.getField "results").getField "maleComputer") with
      | none =>
        simp [permissiveCreate, h1, h2, hmc] at h
        exact Or.inr (Or.inr ⟨h.1.symm, h.2.symm⟩)
      | some mc =>
        cases hfs : filterReactionTimes ((body.getField "results").getField "femaleSkincare") with
        | none =>
          simp [permissiveCreate, h1, h2, hmc, hfs] at h
          exact Or.inr (Or.inr ⟨h.1.symm, h.2.symm⟩)
        | some fs =>
          cases hfc : filterReactionTimes ((body.getField "results").getField "femaleComputer") with
          | none =>
            simp [permissiveCreate, h1, h2, hmc, hfs, hfc] at h
            exact Or.inr (Or.inr ⟨h.1.symm, h.2.symm⟩)
          | some fc =>
            cases hms : filterReactionTimes ((body.getField "results").getField "maleSkincare") with
            | none =>
              simp [permissiveCreate, h1, h2, hmc, hfs, hfc, hms] at h
              exact Or.inr (Or.inr ⟨h.1.symm, h.2.symm⟩)
            | some ms =>
              rw [permissiveCreate_eq_created h1 h2 hmc hfs hfc hms] at h
              simp at h
    · have h2' : (body.getField "userId").truthy = false := by simpa using h2
      simp [permissiveCreate, h1, h2'] at h
      exact Or.inr (Or.inl ⟨h.1.symm, h.2.symm⟩)
  · have h1' : db.connected = false := by simpa using h1
    simp [permissiveCreate, h1'] at h
    exact Or.inl ⟨h.1.symm, h.2.symm⟩

theorem permissiveCreate_eq_saveError {db : Db} {now : Nat} {body : JsValue}
    (hconn : db.connected = true)
    (huser : (body.getField "userId").truthy = true)
    (h : filterReactionTimes ((body.getField "results").getField "maleComputer") = none ∨
         filterReactionTimes ((body.getField "results").getField "femaleSkincare") = none ∨
         filterReactionTimes ((body.getField "results").getField "femaleComputer") = none ∨
         filterReactionTimes ((body.getField "results").getField "maleSkincare") = none) :
    permissiveCreate db now body = (.error 500 "ATLAS_SAVE_ERROR", db) := by
  rcases h with h | h | h | h
  · simp [permissiveCreate, hconn, huser, h]
  · cases hmc : filterReactionTimes ((body.getField "results").getField "maleComputer") <;>
      simp [permissiveCreate, hconn, huser, hmc, h]
  · cases hmc : filterReactionTimes ((body.getField "results").getField "maleComputer") <;>
    cases hfs : filterReactionTimes ((body.getField "results").getField "femaleSkincare") <;>
      simp [permissiveCreate, hconn, huser, hmc, hfs, h]
  · cases hmc : filterReactionTimes ((body.getField "results").getField "maleComputer") <;>
    cases hfs : filterReactionTimes ((body.getField "results").getField "femaleSkincare") <;>
    cases hfc : filterReactionTimes ((body.getField "results").getField "femaleComputer") <;>
      simp [permissiveCreate, hconn, huser, hmc, hfs, hfc, h]

/-- A payload with a truthy `userId` whose `results.maleComputer` is a
truthy non-sequence. -/
def badResultsPayload : JsValue :=
  .obj [("userId", .str "u1"), ("results", .obj [("maleComputer", .num 5)])]

/-- C9 counterexample: with the database connected, a payload with a
truthy `userId` whose `results.maleComputer` is a truthy non-sequence
makes the deployed (permissive) create answer 500 `ATLAS_SAVE_ERROR`
instead of accepting it — refuting the claim that the deployed endpoint
accepts any payload with a truthy `userId` regardless of the shape of
`results`. -/
theorem deployed_accepts_counterexample :
    deployedCreate emptyDb 0 badResultsPayload =
      (.error 500 "ATLAS_SAVE_ERROR", emptyDb) ∧
    (badResultsPayload.getField "userId").truthy = true ∧
    emptyDb.connected = true :=
  ⟨rfl, rfl, rfl⟩

/-- C9 (amended): the server entry point mounts the permissive route
variant at `/api/test-results`, so the deployed create never answers
with the strict variant's `MISSING_RESULTS`, `MISSING_ANALYSIS` or
`INVALID_RESULTS_STRUCTURE` codes; with the database connected it
accepts any payload with a truthy `userId` whose four named results
fields are each sequences or falsy, back-filling defaults for absent
substructures, while a truthy non-sequence results field instead yields
the generic 500 save error. -/
theorem deployed_permissive (db : Db) (now : Nat) (body : JsValue) :
    (∀ s c, (deployedCreate db now body).1 = .error s c →
      c ≠ "MISSING_RESULTS" ∧ c ≠ "MISSING_ANALYSIS" ∧
      c ≠ "INVALID_RESULTS_STRUCTURE") ∧
    (db.connected = true →
     (body.getField "userId").truthy = true →
     (∀ k ∈ ["maleComputer", "femaleSkincare", "femaleComputer", "maleSkincare"],
       ((body.getField "results").getField k).isArray = true ∨
       ((body.getField "results").getField k).truthy = false) →
     ∃ r, (deployedCreate db now body).1 = .created r) ∧
    (db.connected = true →
     (body.getField "userId").truthy = true →
     (∃ k ∈ ["maleComputer", "femaleSkincare", "femaleComputer", "maleSkincare"],
       ((body.getField "results").getField k).truthy = true ∧
       ((body.getField "results").getField k).isArray = false) →
     (deployedCreate db now body).1 = .error 500 "ATLAS_SAVE_ERROR") := by
  refine ⟨?_, ?_, ?_⟩
  · intro s c h
    rcases permissiveCreate_error_codes h with ⟨-, hc⟩ | ⟨-, hc⟩ | ⟨-, hc⟩ <;>
      subst hc <;> exact ⟨by decide, by decide, by decide⟩
  · intro hconn huser hfields
    obtain ⟨mc, hmc⟩ := filterReactionTimes_isSome
      (hfields "maleComputer" (by simp))
    obtain ⟨fs, hfs⟩ := filterReactionTimes_isSome
      (hfields "femaleSkincare" (by simp))
    obtain ⟨fc, hfc⟩ := filterReactionTimes_isSome
      (hfields "femaleComputer" (by simp))
    obtain ⟨ms, hms⟩ := filterReactionTimes_isSome
      (hfields "maleSkincare" (by simp))
    exact ⟨mkPermissiveRecord db.nextId now body mc fs fc ms,
      by rw [deployedCreate_eq,
             permissiveCreate_eq_created hconn huser hmc hfs hfc hms]⟩
  · intro hconn huser hbad
    obtain ⟨k, hk, htr, har⟩ := hbad
    have hnone :
        filterReactionTimes ((body.getField "results").getField k) = none :=
      (filterReactionTimes_eq_none_iff _).mpr ⟨htr, har⟩
    have hk' : k = "maleComputer" ∨ k = "femaleSkincare" ∨
        k = "femaleComputer" ∨ k = "maleSkincare" := by simpa using hk
    rw [deployedCreate_eq]
    rcases hk' with rfl | rfl | rfl | rfl
    · rw [permissiveCreate_eq_saveError hconn huser (Or.inl hnone)]
    · rw [permissiveCreate_eq_saveError hconn huser (Or.inr (Or.inl hnone))]
    · rw [permissiveCreate_eq_saveError hconn huser (Or.inr (Or.inr (Or.inl hnone)))]
    · rw [permissiveCreate_eq_saveError hconn huser (Or.inr (Or.inr (Or.inr hnone)))]

/-- C9 witness: the deployed endpoint accepting a payload that carries
nothing but a `userId`. -/
theorem deployed_permissive_witness :
    ∃ r, (deployedCreate emptyDb 3 (.obj [("userId", .str "u9")])).1 =
      .created r := by
  refine (deployed_permissive emptyDb 3 _).2.1 rfl rfl ?_
  intro k hk
  have hk' : k = "maleComputer" ∨ k = "femaleSkincare" ∨
      k = "femaleComputer" ∨ k = "maleSkincare" := by simpa using hk
  rcases hk' with rfl | rfl | rfl | rfl <;> exact Or.inr rfl

theorem getById_append_fresh (db : Db) (r : TestResultRecord)
    (hfresh : ∀ x ∈ db.records, x.id ≠ r.id) :
    getById { db with records := db.records ++ [r], nextId := db.nextId + 1 }
      r.id = .found r := by
  unfold getById
  have hfind : (db.records ++ [r]).find? (fun x => x.id == r.id) = some r := by
    rw [List.find?_append]
    have h1 : db.records.find? (fun x => x.id == r.id) = none := by
      apply List.find?_eq_none.mpr
      intro x hx
      simp [hfresh x hx]
    rw [h1]
    simp [List.find?]
  rw [hfind]

/-- C2: for a valid payload — connected store with a fresh next
identifier, non-empty string `userId`, four sequences whose entries are
all numbers strictly greater than zero, and an analysis object carrying
a numeric `dScore` and truthy `biasType` and `biasLevel` — create
answers 201 with the generated identifier and the submitted `userId`
echoed unchanged, and get-by-id on the returned identifier against the
updated store yields a record that reproduces the submitted results
sequences and analysis values exactly. -/
theorem create_roundtrip (db : Db) (now : Nat) (body : JsValue) (s : String)
    (mc fs fc ms : List JsValue) (q : Rat)
    (hconn : db.connected = true)
    (hfresh : ∀ x ∈ db.records, x.id ≠ db.nextId)
    (huser : body.getField "userId" = .str s)
    (hs : s ≠ "")
    (hmc : (body.getField "results").getField "maleComputer" = .arr mc)
    (hfs : (body.getField "results").getField "femaleSkincare" = .arr fs)
    (hfc : (body.getField "results").getField "femaleComputer" = .arr fc)
    (hms : (body.getField "results").getField "maleSkincare" = .arr ms)
    (hmcp : ∀ x ∈ mc, isPositiveNumber x = true)
    (hfsp : ∀ x ∈ fs, isPositiveNumber x = true)
    (hfcp : ∀ x ∈ fc, isPositiveNumber x = true)
    (hmsp : ∀ x ∈ ms, isPositiveNumber x = true)
    (hds : (body.getField "analysis").getField "dScore" = .num q)
    (hbt : ((body.getField "analysis").getField "biasType").truthy = true)
    (hbl : ((body.getField "analysis").getField "biasLevel").truthy = true) :
    ∃ r db',
      permissiveCreate db now body = (.created r, db') ∧
      (permissiveCreate db now body).1.status = 201 ∧
      r.id = db.nextId ∧
      r.userId = .str s ∧
      getById db' r.id = .found r ∧
      r.results.maleComputer = mc ∧
      r.results.femaleSkincare = fs ∧
      r.results.femaleComputer = fc ∧
      r.results.maleSkincare = ms ∧
      r.analysis.dScore = q ∧
      r.analysis.biasType = (body.getField "analysis").getField "biasType" ∧
      r.analysis.biasLevel = (body.getField "analysis").getField "biasLevel" := by
  have hmc' : filterReactionTimes
      ((body.getField "results").getField "maleComputer") = some mc := by
    rw [hmc, filterReactionTimes_arr, List.filter_eq_self.mpr hmcp]
  have hfs' : filterReactionTimes
      ((body.getField "results").getField "femaleSkincare") = some fs := by
    rw [hfs, filterReactionTimes_arr, List.filter_eq_self.mpr hfsp]
  have hfc' : filterReactionTimes
      ((body.getField "results").getField "femaleComputer") = some fc := by
    rw [hfc, filterReactionTimes_arr, List.filter_eq_self.mpr hfcp]
  have hms' : filterReactionTimes
      ((body.getField "results").getField "maleSkincare") = some ms := by
    rw [hms, filterReactionTimes_arr, List.filter_eq_self.mpr hmsp]
  have husert : (body.getField "userId").truthy = true := by
    rw [huser]
    simp [JsValue.truthy, hs]
  have heq :=
    @permissiveCreate_eq_created db now body mc fs fc ms
      hconn husert hmc' hfs' hfc' hms'
  refine ⟨mkPermissiveRecord db.nextId now body mc fs fc ms, _, heq,
    ?_, rfl, huser, ?_, rfl, rfl, rfl, rfl, ?_, ?_, ?_⟩
  · rw [heq]
    rfl
  · exact getById_append_fresh db _ hfresh
  · simp [mkPermissiveRecord, buildAnalysisPermissive, numOr0, hds, jsToNumber]
  · simp [mkPermissiveRecord, buildAnalysisPermissive, jsOr, hbt]
  · simp [mkPermissiveRecord, buildAnalysisPermissive, jsOr, hbl]

/-- The example payload of the spec:
`{userId:"u1", results:{maleComputer:[500,620], femaleSkincare:[480],
femaleComputer:[], maleSkincare:[]}, analysis:{dScore:0.35,
biasType:"male-tech", biasLevel:"weak"}}`. -/
def examplePayload : JsValue :=
  .obj [("userId", .str "u1"),
        ("results", .obj
          [("maleComputer", .arr [.num 500, .num 620]),
           ("femaleSkincare", .arr [.num 480]),
           ("femaleComputer", .arr []),
           ("maleSkincare", .arr [])]),
        ("analysis", .obj
          [("dScore", .num (35/100)),
           ("biasType", .str "male-tech"),
           ("biasLevel", .str "weak")])]

/-- C2 witness: the spec's example payload submitted to an empty
connected store. -/
theorem create_roundtrip_witness :
    ∃ r db',
      permissiveCreate emptyDb 1 examplePayload = (.created r, db') ∧
      (permissiveCreate emptyDb 1 examplePayload).1.status = 201 ∧
      r.id = 0 ∧
      r.userId = .str "u1" ∧
      getById db' r.id = .found r ∧
      r.results.maleComputer = [.num 500, .num 620] ∧
      r.results.femaleSkincare = [.num 480] ∧
      r.results.femaleComputer = [] ∧
      r.results.maleSkincare = [] ∧
      r.analysis.dScore = 35/100 ∧
      r.analysis.biasType =
        (examplePayload.getField "analysis").getField "biasType" ∧
      r.analysis.biasLevel =
        (examplePayload.getField "analysis").getField "biasLevel" :=
  create_roundtrip emptyDb 1 examplePayload "u1"
    [.num 500, .num 620] [.num 480] [] [] (35/100)
    rfl (by intro x hx; cases hx) rfl (by decide)
    rfl rfl rfl rfl
    (by decide) (by decide)
    (by intro x hx; cases hx) (by intro x hx; cases hx)
    rfl rfl rfl

theorem sortByCreatedAtDesc_sorted (l : List TestResultRecord) :
    (sortByCreatedAtDesc l).Pairwise createdAtDesc := by
  haveI : IsTotal TestResultRecord createdAtDesc :=
    ⟨fun a b => Nat.le_total b.createdAt a.createdAt⟩
  haveI : IsTrans TestResultRecord createdAtDesc :=
    ⟨fun _ _ _ hab hbc => Nat.le_trans hbc hab⟩
  exact List.sorted_insertionSort createdAtDesc l

theorem sortByCreatedAtDesc_perm (l : List TestResultRecord) :
    List.Perm (sortByCreatedAtDesc l) l :=
  List.perm_insertionSort _ l

theorem applyUserIdFilter_nil (userIdQ : Option String) :
    applyUserIdFilter userIdQ [] = [] := by
  cases userIdQ with
  | none => rfl
  | some u => by_cases h : u = "" <;> simp [applyUserIdFilter, h]

theorem mem_applyUserIdFilter {userIdQ : Option String}
    {l : List TestResultRecord} {r : TestResultRecord}
    (h : r ∈ applyUserIdFilter userIdQ l) :
    r ∈ l ∧ ∀ u, userIdQ = some u → u ≠ "" → userIdMatches u r = true := by
  cases userIdQ with
  | none =>
    refine ⟨h, ?_⟩
    intro u hu
    cases hu
  | some u =>
    by_cases hu : u = ""
    · subst hu
      simp only [applyUserIdFilter, if_pos rfl] at h
      refine ⟨h, ?_⟩
      intro u' hu' hne
      cases hu'
      exact absurd rfl hne
    · simp only [applyUserIdFilter, if_neg hu, List.mem_filter] at h
      refine ⟨h.1, ?_⟩
      intro u' hu' _
      cases hu'
      exact h.2

theorem ceil_pages_spec (t l : Nat) (hl : 0 < l) :
    (t = 0 → (t + l - 1) / l = 0) ∧
    t ≤ ((t + l - 1) / l) * l ∧
    (0 < t → ((t + l - 1) / l - 1) * l < t) := by
  refine ⟨?_, ?_, ?_⟩
  · intro ht
    subst ht
    exact Nat.div_eq_of_lt (by omega)
  · rcases Nat.eq_zero_or_pos t with ht | ht
    · subst ht
      exact Nat.zero_le _
    · have h1 : t + l - 1 = (t - 1) + l := by omega
      rw [h1, Nat.add_div_right _ hl, Nat.mul_comm]
      have h2 : t - 1 < l * ((t - 1) / l + 1) := Nat.lt_mul_div_succ _ hl
      omega
  · intro ht
    have h1 : t + l - 1 = (t - 1) + l := by omega
    rw [h1, Nat.add_div_right _ hl]
    simp only [Nat.add_sub_cancel]
    have h2 : (t - 1) / l * l ≤ t - 1 := Nat.div_mul_le_self _ _
    omega

/-- C5: the list endpoint returns the requested page of records in
descending creation-time order, filtered by `userId` when a truthy
`userId` query parameter is given, with `surveyResponses` and
`deviceInfo` excluded (the items carry only the remaining fields by
construction); `page` and `limit` default to 1 and 20, `total` is the
filtered record count, and `pages` equals `ceil(total/limit)` —
characterized by `pages = 0` when `total = 0`, `total ≤ pages·limit` and
`(pages−1)·limit < total` when `total > 0`; on an empty collection the
response has `total = 0`, `pages = 0` and an empty data array. -/
theorem list_spec (db : Db) (pageQ limitQ : Option Nat)
    (userIdQ : Option String) (hl : 0 < limitQ.getD 20) :
    (listHandler db pageQ limitQ userIdQ).pagination.page = pageQ.getD 1 ∧
    (listHandler db pageQ limitQ userIdQ).pagination.limit = limitQ.getD 20 ∧
    (listHandler db pageQ limitQ userIdQ).pagination.total =
      (applyUserIdFilter userIdQ db.records).length ∧
    (userIdQ = none →
      (listHandler db pageQ limitQ userIdQ).pagination.total =
        db.records.length) ∧
    (listHandler db pageQ limitQ userIdQ).data.length ≤ limitQ.getD 20 ∧
    (listHandler db pageQ limitQ userIdQ).data.Pairwise
      (fun a b => b.createdAt ≤ a.createdAt) ∧
    (∀ it ∈ (listHandler db pageQ limitQ userIdQ).data,
      ∃ r ∈ db.records, it = r.toListItem ∧
        ∀ u, userIdQ = some u → u ≠ "" → userIdMatches u r = true) ∧
    ((listHandler db pageQ limitQ userIdQ).pagination.total = 0 →
      (listHandler db pageQ limitQ userIdQ).pagination.pages = 0) ∧
    (listHandler db pageQ limitQ userIdQ).pagination.total ≤
      (listHandler db pageQ limitQ userIdQ).pagination.pages *
        limitQ.getD 20 ∧
    (0 < (listHandler db pageQ limitQ userIdQ).pagination.total →
      ((listHandler db pageQ limitQ userIdQ).pagination.pages - 1) *
        limitQ.getD 20 <
        (listHandler db pageQ limitQ userIdQ).pagination.total) ∧
    (db.records = [] →
      (listHandler db pageQ limitQ userIdQ).pagination.total = 0 ∧
      (listHandler db pageQ limitQ userIdQ).pagination.pages = 0 ∧
      (listHandler db pageQ limitQ userIdQ).data = []) := by
  obtain ⟨hc0, hc1, hc2⟩ :=
    ceil_pages_spec (applyUserIdFilter userIdQ db.records).length
      (limitQ.getD 20) hl
  refine ⟨rfl, rfl, rfl, ?_, ?_, ?_, ?_, hc0, hc1, hc2, ?_⟩
  · intro h
    subst h
    rfl
  · simp only [listHandler, List.length_map]
    exact List.length_take_le _ _
  · have hsorted := sortByCreatedAtDesc_sorted (applyUserIdFilter userIdQ db.records)
    have hsub : List.Sublist
        (((sortByCreatedAtDesc (applyUserIdFilter userIdQ db.records)).drop
            ((pageQ.getD 1 - 1) * limitQ.getD 20)).take (limitQ.getD 20))
        (sortByCreatedAtDesc (applyUserIdFilter userIdQ db.records)) :=
      (List.take_sublist _ _).trans (List.drop_sublist _ _)
    have h1 := hsorted.sublist hsub
    simp only [listHandler, List.pairwise_map]
    exact h1
  · intro it hit
    simp only [listHandler, List.mem_map] at hit
    obtain ⟨x, hx, hxe⟩ := hit
    have hxs : x ∈ sortByCreatedAtDesc (applyUserIdFilter userIdQ db.records) :=
      ((List.take_sublist _ _).trans (List.drop_sublist _ _)).mem hx
    have hxf : x ∈ applyUserIdFilter userIdQ db.records :=
      (sortByCreatedAtDesc_perm _).mem_iff.mp hxs
    obtain ⟨hmem, hmatch⟩ := mem_applyUserIdFilter hxf
    exact ⟨x, hmem, hxe.symm, hmatch⟩
  · intro h
    have hfil : applyUserIdFilter userIdQ db.records = [] := by
      rw [h]
      exact applyUserIdFilter_nil userIdQ
    refine ⟨?_, ?_, ?_⟩
    · simp only [listHandler, hfil, List.length_nil]
    · simp only [listHandler, hfil, List.length_nil]
      exact Nat.div_eq_of_lt (by omega)
    · simp [listHandler, hfil, sortByCreatedAtDesc, List.insertionSort]

/-- C5 witness: the default query on an empty collection. -/
theorem list_spec_witness :
    (listHandler emptyDb none none none).pagination.page = 1 ∧
    (listHandler emptyDb none none none).pagination.limit = 20 ∧
    (listHandler emptyDb none none none).pagination.total = 0 ∧
    (listHandler emptyDb none none none).pagination.pages = 0 ∧
    (listHandler emptyDb none none none).data = [] := by
  have h := list_spec emptyDb none none none (by decide)
  have hempty := h.2.2.2.2.2.2.2.2.2.2 rfl
  exact ⟨h.1, h.2.1, hempty.1, hempty.2.1, hempty.2.2⟩

end BiasTest
